import Mathlib

/-!
Verification development for the Finance-crypto repository.

The frontend definitions below are embedded from src/frontend/src/App.js.
The backend (the FastAPI server holding the Quote Store, Fetch Coordinator,
Valuation Engine, Alert Engine and News Aggregator) is not part of the
source tree; those definitions are modelled from the specification, as
marked in their doc comments.
-/

/-- User record returned by the users me endpoint, as read by fetchUser in
App.js; only the fields the claims need are kept. -/
structure UserInfo where
  username : String
  email : String
deriving DecidableEq

/-- Authentication state held by AuthProvider in App.js: the stored token,
the fetched user, and the loading flag. -/
structure AuthState where
  token : Option String
  user : Option UserInfo
  loading : Bool
deriving DecidableEq

/-- Embedded from App.js logout (lines 72-76): removes the stored token and
clears the user. The loading flag is not touched. -/
def logout (s : AuthState) : AuthState :=
  { token := none, user := none, loading := s.loading }

/-- Outcome of the axios request to the users me endpoint: a user payload on
success, or a failure carrying the HTTP status of the response when a response
object exists (none models a network error with no response). -/
inductive FetchUserOutcome
  | success (u : UserInfo)
  | failure (status : Option Nat)
deriving DecidableEq

/-- Embedded from App.js fetchUser (lines 78-99): with no token it only clears
the loading flag and issues no request; otherwise on success it stores the
user, on a failure whose response status is 401 it calls logout, and on any
other failure it changes nothing; the finally block always clears loading. -/
def fetchUser (s : AuthState) (r : FetchUserOutcome) : AuthState :=
  match s.token with
  | none => { s with loading := false }
  | some _ =>
    match r with
    | .success u => { s with user := some u, loading := false }
    | .failure st =>
      if st = some 401 then { logout s with loading := false }
      else { s with loading := false }

/-- The three screens AppContent can render. -/
inductive Screen
  | loadingScreen
  | loginScreen
  | mainContent
deriving DecidableEq

/-- Embedded from App.js AppContent (lines 785-798): the loading spinner while
auth.loading is set, otherwise MainContent when a token is present and the
login screen when it is not. -/
def renderAppContent (s : AuthState) : Screen :=
  if s.loading then .loadingScreen
  else
    match s.token with
    | some _ => .mainContent
    | none => .loginScreen

/-- Quote payload rendered by MarketCard in App.js; prices and changes are
modelled as rationals and only the fields MarketCard reads are kept. -/
structure MarketData where
  symbol : String
  price : ℚ
  change : ℚ
  change_percent : ℚ
deriving DecidableEq

/-- Embedded from App.js MarketCard (line 271): isPositive is data.change > 0. -/
def isPositive (d : MarketData) : Bool :=
  decide (d.change > 0)

/-- Embedded from App.js MarketCard (line 286): the sign text prepended to the
rendered change amount is a plus sign exactly when isPositive, and empty
otherwise. -/
def changeSignText (d : MarketData) : String :=
  if isPositive d then "+" else ""

/-- The two styles MarketCard can attach to the change text. -/
inductive ChangeStyle
  | positiveChange
  | negativeChange
deriving DecidableEq

/-- Embedded from App.js MarketCard (line 283): the positiveChange style when
isPositive, the negativeChange style otherwise. -/
def changeStyle (d : MarketData) : ChangeStyle :=
  if isPositive d then .positiveChange else .negativeChange

/-- One chart dataset as built by generateChartData in App.js. -/
structure ChartDataset where
  label : String
  data : List Nat
deriving DecidableEq

/-- Embedded from App.js generateChartData (lines 297-318): each call builds
two fresh 30-point datasets from Math.random draws. The stream of draws of one
call is modelled by a function giving, at position i, the value
floor(random times 5000) of the i-th draw, a natural below 5000 represented
here by reduction mod 5000; the first 30 draws feed the Portfolio Value
dataset and the next 30 the Market Index dataset. Day labels are omitted. -/
def generateChartData (draws : Nat → Nat) : List ChartDataset :=
  [ { label := "Portfolio Value",
      data := (List.range 30).map (fun i => draws i % 5000 + 10000) },
    { label := "Market Index",
      data := (List.range 30).map (fun i => draws (30 + i) % 5000 + 8000) } ]

/-- The Portfolio Value series of one rendered chart. -/
def portfolioValueSeries (draws : Nat → Nat) : List Nat :=
  ((generateChartData draws).headD { label := "", data := [] }).data

/-- Formalised from the spec sentences on the historical valuation series:
with a full 30-point rolling window, one snapshot step appends the newest
sample and drops only the oldest point, so the series produced by the next
step must begin with the previous series minus its oldest point. This is a
necessary condition of append-only retention, stated from the spec words for
comparison with the chart series the code actually produces. -/
def specRollingAppendStep (prev next : List Nat) : Bool :=
  decide (next.take 29 = prev.drop 1)

/-- Modelled from the spec: the Quote record of section 3; the FastAPI backend
holding it is not under src. Change, volume, market cap and the upstream
timestamp are omitted as no claim reads them; fetched_at is the local fetch
timestamp used for freshness. -/
structure Quote where
  symbol : String
  price : ℚ
  fetched_at : Nat
deriving DecidableEq

/-- Per-symbol result of a Quote Store read: the quote plus a staleness flag. -/
structure QuoteResult where
  quote : Quote
  stale : Bool
deriving DecidableEq

/-- Modelled from the spec: the error taxonomy entry of section 7 for a failed
upstream fetch with no cached value; the backend is not under src. -/
inductive QuoteError
  | UpstreamUnavailable
deriving DecidableEq

/-- Outcome of one upstream fetch for a symbol. -/
inductive FetchOutcome
  | success (q : Quote)
  | failure
deriving DecidableEq

/-- Modelled from the spec: the Quote Store get path for one symbol, section
4.1; the backend is not under src. A cached entry younger than the TTL is
served fresh without fetching; otherwise the fetch outcome decides: a
successful fetch is served fresh, a failed fetch falls back to the cached
entry with stale set, and with no cached value at all the symbol fails with
UpstreamUnavailable. -/
def quoteStoreGet (cache : Option Quote) (now ttl : Nat) (fetch : FetchOutcome) :
    Except QuoteError QuoteResult :=
  match cache with
  | some c =>
    if now - c.fetched_at < ttl then .ok { quote := c, stale := false }
    else
      match fetch with
      | .success q => .ok { quote := q, stale := false }
      | .failure => .ok { quote := c, stale := true }
  | none =>
    match fetch with
    | .success q => .ok { quote := q, stale := false }
    | .failure => .error .UpstreamUnavailable

/-- Single-flight state of the Fetch Coordinator for one symbol: whether a
fetch is in flight, how many callers await it, and how many upstream calls
have been issued. -/
structure FlightState where
  inFlight : Bool
  waiters : Nat
  upstreamCalls : Nat
deriving DecidableEq

/-- The coordinator state for a symbol before any caller arrives. -/
def emptyFlight : FlightState :=
  { inFlight := false, waiters := 0, upstreamCalls := 0 }

/-- Modelled from the spec: one get caller arriving at the Fetch Coordinator
for a symbol with no cache entry, sections 4.2 and 5; the backend is not under
src. A caller finding a fetch already in flight attaches as a waiter on it; a
caller finding none sets the in-flight marker and issues the one upstream
call. Arrivals are the atomic steps of the interleaving. -/
def arrive (s : FlightState) : FlightState :=
  if s.inFlight then { s with waiters := s.waiters + 1 }
  else { inFlight := true, waiters := s.waiters + 1, upstreamCalls := s.upstreamCalls + 1 }

/-- N callers arriving one after the other, starting from the empty state. -/
def arriveN : Nat → FlightState
  | 0 => emptyFlight
  | n + 1 => arrive (arriveN n)

/-- Modelled from the spec: completion of the in-flight fetch, section 4.2;
the backend is not under src. Every waiter receives the same fetched quote,
fresh, and the in-flight marker clears. -/
def completeFetch (q : Quote) (s : FlightState) : FlightState × List QuoteResult :=
  ({ s with inFlight := false, waiters := 0 },
   List.replicate s.waiters { quote := q, stale := false })

/-- Modelled from the spec: the Holding record of section 3; the backend is
not under src. purchase_date is omitted as no claim reads it. -/
structure Holding where
  portfolio_id : Nat
  symbol : String
  quantity : ℚ
  purchase_price : ℚ
deriving DecidableEq

/-- A portfolio-level valuation total. -/
structure PortfolioValuation where
  market_value : ℚ
  unrealized_pnl : ℚ
deriving DecidableEq

/-- Modelled from the spec: the Valuation Engine compute of section 4.3; the
backend is not under src. Each holding contributes market value quantity times
price and unrealized pnl market value minus quantity times purchase price,
with prices read through a lookup standing for the Quote Store; the Valuation
aggregates the per-holding results into portfolio totals. -/
def compute (priceOf : String → ℚ) (holdings : List Holding) : PortfolioValuation :=
  { market_value := (holdings.map (fun h => h.quantity * priceOf h.symbol)).sum,
    unrealized_pnl :=
      (holdings.map
        (fun h => h.quantity * priceOf h.symbol - h.quantity * h.purchase_price)).sum }

/-- Total acquisition cost of a holdings list: quantity times purchase price,
summed. -/
def totalCost (holdings : List Holding) : ℚ :=
  (holdings.map (fun h => h.quantity * h.purchase_price)).sum

/-- The worked valuation example of the spec: 10 shares bought at 100 and 5
shares bought at 180, held in one portfolio. -/
def exampleHoldings : List Holding :=
  [ { portfolio_id := 1, symbol := "AAA", quantity := 10, purchase_price := 100 },
    { portfolio_id := 1, symbol := "BBB", quantity := 5, purchase_price := 180 } ]

/-- The quoted prices of the worked valuation example: 150 for the first
symbol and 200 for the second. -/
def examplePriceOf : String → ℚ :=
  fun s => if s = "AAA" then 150 else 200

/-- Modelled from the spec: AlertRule status, section 3. -/
inductive AlertStatus
  | active
  | triggered
  | disabled
deriving DecidableEq

/-- Modelled from the spec: the alert condition kinds, section 3. -/
inductive AlertCondition
  | above
  | below
deriving DecidableEq

/-- Modelled from the spec: the AlertRule record of section 3; the backend is
not under src. Owner, symbol and created_at are omitted as no claim reads
them. -/
structure AlertRule where
  condition : AlertCondition
  threshold : ℚ
  status : AlertStatus
  last_triggered_at : Option Nat
deriving DecidableEq

/-- Modelled from the spec: the firing condition of section 4.4: an above rule
holds when the price is at least the threshold, a below rule when the price is
at most it. -/
def condHolds (r : AlertRule) (price : ℚ) : Bool :=
  match r.condition with
  | .above => decide (r.threshold ≤ price)
  | .below => decide (price ≤ r.threshold)

/-- Modelled from the spec: one evaluation of a rule against a refreshed quote
at a given time, section 4.4; the backend is not under src. Only an active
rule whose condition holds fires: it becomes triggered, records the event time
in last_triggered_at, and emits exactly one notification, counted in the
second component. Triggered and disabled rules are excluded from evaluation;
no automatic re-arm is configured, matching the spec default of owner reset. -/
def evalRule (r : AlertRule) (t : Nat) (price : ℚ) : AlertRule × Nat :=
  if r.status = .active then
    if condHolds r price then
      ({ r with status := .triggered, last_triggered_at := some t }, 1)
    else (r, 0)
  else (r, 0)

/-- Folds evalRule over a sequence of timed quote refreshes for the rule's
symbol, accumulating the total number of notifications emitted. -/
def runRule (r : AlertRule) : List (Nat × ℚ) → AlertRule × Nat
  | [] => (r, 0)
  | (t, p) :: rest =>
    let step := evalRule r t p
    let tail := runRule step.1 rest
    (tail.1, step.2 + tail.2)

/-- The above 150 rule of the spec example, initially active. -/
def above150 : AlertRule :=
  { condition := .above, threshold := 150, status := .active, last_triggered_at := none }

/-- The quote refresh sequence of the spec example, with event times 0 to 4. -/
def alertSeq : List (Nat × ℚ) :=
  [(0, 140), (1, 145), (2, 151), (3, 148), (4, 152)]

/-- Modelled from the spec: the stored NewsItem of section 3; the backend is
not under src. Id, summary, sentiment and related_symbols are omitted as no
claim reads them; the same three fields also describe a raw item handed to
ingest. -/
structure NewsItem where
  title : String
  source : String
  published_at : Nat
deriving DecidableEq

/-- Modelled from the spec: the normalisation applied to title and source
before fingerprinting, section 4.5; the backend is not under src. Surrounding
whitespace is trimmed and case is folded. -/
def normalizeField (s : String) : String :=
  s.trim.toLower

/-- Modelled from the spec: the dedup fingerprint of normalised title, source
and published_at, sections 3 and 4.5. -/
def fingerprint (title source : String) (published_at : Nat) : String × String × Nat :=
  (normalizeField title, normalizeField source, published_at)

/-- The fingerprint of a stored or raw item. -/
def fingerprintOf (n : NewsItem) : String × String × Nat :=
  fingerprint n.title n.source n.published_at

/-- Modelled from the spec: News Aggregator ingest, section 4.5; the backend
is not under src. An item whose fingerprint is already present in the store is
a no-op returning inserted false; otherwise the item is persisted and ingest
returns inserted true. Sentiment tagging and symbol matching are omitted as no
claim reads them. -/
def ingest (store : List NewsItem) (raw : NewsItem) : Bool × List NewsItem :=
  if store.any (fun n => decide (fingerprintOf n = fingerprintOf raw)) then (false, store)
  else (true, store ++ [raw])

/-- Modelled from the spec: the Portfolio document of section 3; the backend
is not under src. Owner, description and created_at are omitted as no claim
reads them, and the Lean name carries a Rec suffix. -/
structure PortfolioRec where
  id : Nat
  name : String
deriving DecidableEq

/-- Modelled from the spec: the persistence collaborator state relevant to
portfolio deletion, the Portfolio and Holding collections, section 6. -/
structure StoreState where
  portfolios : List PortfolioRec
  holdings : List Holding
deriving DecidableEq

/-- Modelled from the spec: deleting a Portfolio cascades to its Holdings,
section 3; the backend is not under src. The portfolio document and every
holding carrying its id are removed; everything else stays. -/
def deletePortfolioCascade (db : StoreState) (pid : Nat) : StoreState :=
  { portfolios := db.portfolios.filter (fun p => p.id != pid),
    holdings := db.holdings.filter (fun h => h.portfolio_id != pid) }

/-- A concrete two-portfolio store used to witness the cascade theorem. -/
def exampleStore : StoreState :=
  { portfolios := [{ id := 1, name := "growth" }, { id := 2, name := "income" }],
    holdings :=
      [ { portfolio_id := 1, symbol := "AAA", quantity := 10, purchase_price := 100 },
        { portfolio_id := 2, symbol := "BBB", quantity := 5, purchase_price := 180 } ] }

/-! Theorems. -/

/-- Claim C10: MarketCard classifies a quote as positive exactly when
data.change is strictly greater than zero; for a change of exactly zero the
rendered change text carries no plus sign and gets the negativeChange style,
not the positive one. -/
theorem marketCard_change_classification (d : MarketData) :
    (isPositive d = true ↔ 0 < d.change) ∧
    (d.change = 0 → changeSignText d = "" ∧ changeStyle d = .negativeChange) := by
  constructor
  · simp [isPositive]
  · intro h
    have hpos : isPositive d = false := by
      simp [isPositive, h]
    simp [changeSignText, changeStyle, hpos]

/-- Witness for claim C10 at a concrete quote with change exactly zero. -/
theorem marketCard_change_classification_witness :
    ({ symbol := "AAPL", price := 100, change := 0, change_percent := 0 } : MarketData).change = 0 ∧
    changeSignText { symbol := "AAPL", price := 100, change := 0, change_percent := 0 } = "" ∧
    changeStyle { symbol := "AAPL", price := 100, change := 0, change_percent := 0 } =
      .negativeChange := by
  refine ⟨rfl, ?_⟩
  exact (marketCard_change_classification
    { symbol := "AAPL", price := 100, change := 0, change_percent := 0 }).2 rfl

/-- Claim C8 counterexample: while auth.loading is set, a state holding a
non-null token renders the loading spinner, not the authenticated main
content, so main content rendered is not equivalent to token non-null over all
states. -/
theorem appContent_loading_counterexample :
    (({ token := some "tok", user := none, loading := true } : AuthState).token ≠ none) ∧
    renderAppContent { token := some "tok", user := none, loading := true } ≠ .mainContent := by
  constructor
  · simp
  · simp [renderAppContent]

/-- Claim C8 (amended): once loading is cleared, the authenticated main
content is rendered exactly when auth.token is non-null; logout nulls the
stored token and the user while leaving loading untouched, so rendering after
a logout from a non-loading state shows the login screen and no authenticated
screen. -/
theorem appContent_auth_gate (s : AuthState) (h : s.loading = false) :
    (renderAppContent s = .mainContent ↔ s.token ≠ none) ∧
    (logout s).token = none ∧ (logout s).user = none ∧
    renderAppContent (logout s) = .loginScreen := by
  refine ⟨?_, rfl, rfl, ?_⟩
  · cases htok : s.token <;> simp [renderAppContent, h, htok]
  · simp [renderAppContent, logout, h]

/-- Witness for claim C8 at a concrete logged-in, non-loading state. -/
theorem appContent_auth_gate_witness :
    (renderAppContent { token := some "tok", user := none, loading := false } = .mainContent ↔
      ({ token := some "tok", user := none, loading := false } : AuthState).token ≠ none) ∧
    renderAppContent (logout { token := some "tok", user := none, loading := false }) =
      .loginScreen :=
  ⟨(appContent_auth_gate { token := some "tok", user := none, loading := false } rfl).1,
   (appContent_auth_gate { token := some "tok", user := none, loading := false } rfl).2.2.2⟩

/-- Claim C9: fetchUser removes the stored token exactly when the users me
request fails with HTTP status 401; on success it sets the user from the
response; on any failure other than a 401 response it leaves the token
unchanged; and in every case, token or not, it clears the loading flag. -/
theorem fetchUser_token_removal (s : AuthState) (r : FetchUserOutcome) :
    (fetchUser s r).loading = false ∧
    (∀ t, s.token = some t →
      (((fetchUser s r).token = none) ↔ r = .failure (some 401)) ∧
      (∀ u, r = .success u → (fetchUser s r).user = some u) ∧
      (∀ st, r = .failure st → st ≠ some 401 → (fetchUser s r).token = s.token)) := by
  cases htok : s.token with
  | none =>
    refine ⟨by simp [fetchUser, htok], ?_⟩
    intro t ht
    simp [htok] at ht
  | some tok =>
    cases r with
    | success u =>
      refine ⟨by simp [fetchUser, htok], ?_⟩
      intro t ht
      refine ⟨by simp [fetchUser, htok], fun v hv => ?_, fun st hst => by simp at hst⟩
      cases hv
      simp [fetchUser, htok]
    | failure st =>
      by_cases h401 : st = some 401
      · subst h401
        refine ⟨by simp [fetchUser, htok, logout], ?_⟩
        intro t ht
        refine ⟨by simp [fetchUser, htok, logout], fun v hv => by simp at hv,
          fun st' hst' hne => ?_⟩
        cases hst'
        exact absurd rfl hne
      · refine ⟨by simp [fetchUser, htok, h401], ?_⟩
        intro t ht
        refine ⟨?_, fun v hv => by simp at hv, fun st' hst' hne => ?_⟩
        · simp [fetchUser, htok, h401]
        · cases hst'
          simp [fetchUser, htok, h401]

/-- Witness for claim C9: a 401-failing request against a concrete state with
a stored token does remove the token. -/
theorem fetchUser_token_removal_witness :
    (fetchUser { token := some "tok", user := none, loading := true }
      (.failure (some 401))).token = none :=
  ((fetchUser_token_removal { token := some "tok", user := none, loading := true }
      (.failure (some 401))).2 "tok" rfl).1.mpr rfl

/-- Claim C7 counterexample: two consecutive renders of the chart, with
concrete draw streams, produce entirely different Portfolio Value series; the
second does not extend the first minus its oldest point, so the series is
rewritten wholesale rather than maintained append-only by a snapshot job. -/
theorem chart_series_rewritten_counterexample :
    portfolioValueSeries (fun _ => 0) = List.replicate 30 10000 ∧
    portfolioValueSeries (fun _ => 1) = List.replicate 30 10001 ∧
    specRollingAppendStep (portfolioValueSeries (fun _ => 0))
      (portfolioValueSeries (fun _ => 1)) = false ∧
    portfolioValueSeries (fun _ => 0) ≠ portfolioValueSeries (fun _ => 1) := by
  refine ⟨by decide, by decide, by decide, by decide⟩

/-- Claim C7 (amended): the frontend chart's 30-day Portfolio Value series is
regenerated on every render purely from fresh pseudo-random draws, each point
lying in the band from 10000 up to but excluding 15000; it is determined by
the draw stream alone, independent of any portfolio valuation, and is not an
append-only snapshot series. -/
theorem chart_series_random (draws : Nat → Nat) :
    (portfolioValueSeries draws).length = 30 ∧
    ∀ v ∈ portfolioValueSeries draws, 10000 ≤ v ∧ v < 15000 := by
  constructor
  · simp [portfolioValueSeries, generateChartData]
  · intro v hv
    simp [portfolioValueSeries, generateChartData] at hv
    obtain ⟨i, _, hi⟩ := hv
    subst hi
    have hmod : draws i % 5000 < 5000 := Nat.mod_lt _ (by decide)
    omega

/-- Witness for claim C7 at a concrete draw stream and a concrete point. -/
theorem chart_series_random_witness :
    10000 ∈ portfolioValueSeries (fun _ => 0) ∧
    10000 ≤ 10000 ∧ 10000 < 15000 :=
  ⟨by decide, (chart_series_random (fun _ => 0)).2 10000 (by decide)⟩

/-- Claim C1: for a symbol with a cached quote the Quote Store read never
fails whatever the fetch outcome; when the entry is past its TTL and the
upstream fetch fails the cached quote is returned with stale true; and only
with no cached value at all does a failed fetch surface UpstreamUnavailable. -/
theorem quoteStore_stale_fallback (c : Quote) (now ttl : Nat) (f : FetchOutcome) :
    (∃ res, quoteStoreGet (some c) now ttl f = .ok res) ∧
    (¬ now - c.fetched_at < ttl →
      quoteStoreGet (some c) now ttl .failure = .ok { quote := c, stale := true }) ∧
    quoteStoreGet none now ttl .failure = .error .UpstreamUnavailable := by
  refine ⟨?_, fun hfresh => ?_, rfl⟩
  · by_cases hfresh : now - c.fetched_at < ttl
    · exact ⟨{ quote := c, stale := false }, by simp [quoteStoreGet, hfresh]⟩
    · cases f with
      | success q => exact ⟨{ quote := q, stale := false }, by simp [quoteStoreGet, hfresh]⟩
      | failure => exact ⟨{ quote := c, stale := true }, by simp [quoteStoreGet, hfresh]⟩
  · simp [quoteStoreGet, hfresh]

/-- Witness for claim C1: an expired concrete cache entry served stale on a
failed fetch. -/
theorem quoteStore_stale_fallback_witness :
    quoteStoreGet (some { symbol := "AAPL", price := 100, fetched_at := 0 }) 100 10 .failure =
      .ok { quote := { symbol := "AAPL", price := 100, fetched_at := 0 }, stale := true } :=
  (quoteStore_stale_fallback { symbol := "AAPL", price := 100, fetched_at := 0 }
    100 10 .failure).2.1 (by decide)

/-- After any positive number of arrivals from the empty state, the in-flight
marker is set, every caller so far is a waiter, and exactly one upstream call
has been issued. -/
theorem arriveN_spec (n : Nat) (h : 1 ≤ n) :
    (arriveN n).inFlight = true ∧ (arriveN n).waiters = n ∧
    (arriveN n).upstreamCalls = 1 := by
  induction n with
  | zero => cases h
  | succ m ih =>
    cases Nat.eq_or_lt_of_le h with
    | inl h1 =>
      cases h1
      simp [arriveN, arrive, emptyFlight]
    | inr h1 =>
      have hm : 1 ≤ m := Nat.lt_succ_iff.mp h1
      obtain ⟨hf, hw, hu⟩ := ih hm
      simp [arriveN, arrive, hf, hw, hu]

/-- Claim C2: when N concurrent get calls arrive for a symbol with no cache
entry, exactly one upstream call is issued no matter the interleaving of
arrivals, and when that single fetch completes successfully all N callers
receive the same fresh result built from its quote. -/
theorem singleFlight_dedup (n : Nat) (q : Quote) (h : 1 ≤ n) :
    (arriveN n).upstreamCalls = 1 ∧
    (arriveN n).waiters = n ∧
    (completeFetch q (arriveN n)).2 = List.replicate n { quote := q, stale := false } := by
  obtain ⟨_, hw, hu⟩ := arriveN_spec n h
  exact ⟨hu, hw, by simp [completeFetch, hw]⟩

/-- Witness for claim C2 at three concurrent callers and a concrete quote. -/
theorem singleFlight_dedup_witness :
    (arriveN 3).upstreamCalls = 1 ∧
    (arriveN 3).waiters = 3 ∧
    (completeFetch { symbol := "AAPL", price := 100, fetched_at := 7 } (arriveN 3)).2 =
      List.replicate 3
        { quote := { symbol := "AAPL", price := 100, fetched_at := 7 }, stale := false } :=
  singleFlight_dedup 3 { symbol := "AAPL", price := 100, fetched_at := 7 } (by decide)

/-- Claim C3 counterexample: on the spec's own worked example, two holdings of
10 shares bought at 100 quoted at 150 and 5 shares bought at 180 quoted at
200, compute yields a market value of 2500 but an unrealized pnl of 600, not
the 500 the claim states. -/
theorem compute_example_counterexample :
    compute examplePriceOf exampleHoldings =
      { market_value := 2500, unrealized_pnl := 600 } ∧
    ({ market_value := 2500, unrealized_pnl := 600 } : PortfolioValuation).unrealized_pnl ≠
      500 := by
  refine ⟨?_, by decide⟩
  simp [compute, examplePriceOf, exampleHoldings]
  norm_num

/-- Claim C3 (amended): compute derives each holding's market value as
quantity times price and its unrealized pnl as market value minus quantity
times purchase price, and aggregates portfolio totals, so the total unrealized
pnl equals the total market value minus the total acquisition cost; on the
worked example the totals are a market value of 2500 and an unrealized pnl of
600. -/
theorem compute_aggregates (priceOf : String → ℚ) (hs : List Holding) :
    (compute priceOf hs).unrealized_pnl = (compute priceOf hs).market_value - totalCost hs ∧
    compute examplePriceOf exampleHoldings =
      { market_value := 2500, unrealized_pnl := 600 } := by
  constructor
  · simp only [compute, totalCost]
    induction hs with
    | nil => simp
    | cons h t ih =>
      simp [List.map_cons, List.sum_cons, ih]
      ring
  · simp [compute, examplePriceOf, exampleHoldings]
    norm_num

/-- A triggered rule is excluded from evaluation: feeding it any further
refreshes changes nothing and emits no notification. -/
theorem runRule_of_triggered (evs : List (Nat × ℚ)) (r : AlertRule)
    (h : r.status = .triggered) : runRule r evs = (r, 0) := by
  induction evs with
  | nil => rfl
  | cons e rest ih =>
    obtain ⟨t, p⟩ := e
    have hstep : evalRule r t p = (r, 0) := by
      simp [evalRule, h]
    simp [runRule, hstep, ih]

/-- Over any refresh sequence, an initially active rule emits at most one
notification, and emits exactly one precisely when some refresh in the
sequence satisfies its condition. -/
theorem runRule_active_spec (evs : List (Nat × ℚ)) (r : AlertRule)
    (h : r.status = .active) :
    (runRule r evs).2 ≤ 1 ∧
    ((runRule r evs).2 = 1 ↔ evs.any (fun e => condHolds r e.2) = true) := by
  induction evs with
  | nil => simp [runRule]
  | cons e rest ih =>
    obtain ⟨t, p⟩ := e
    by_cases hc : condHolds r p = true
    · have hstep : evalRule r t p =
        ({ r with status := .triggered, last_triggered_at := some t }, 1) := by
        simp [evalRule, h, hc]
      have htail : runRule { r with status := .triggered, last_triggered_at := some t } rest =
          ({ r with status := .triggered, last_triggered_at := some t }, 0) :=
        runRule_of_triggered rest _ rfl
      simp [runRule, hstep, htail, hc]
    · have hstep : evalRule r t p = (r, 0) := by
        simp [evalRule, h, hc]
      obtain ⟨ih1, ih2⟩ := ih
      constructor
      · simpa [runRule, hstep] using ih1
      · simpa [runRule, hstep, hc] using ih2

/-- Claim C4: an active rule transitions to triggered, records the event time,
and emits exactly one notification on the first refresh satisfying its
condition, never re-firing while the condition stays true without a re-arm; in
particular the above 150 rule over the quotes 140, 145, 151, 148, 152 fires
exactly once, at the 151 event at time 2, having emitted nothing before it,
and does not fire again at 152. -/
theorem alert_fires_exactly_once (r : AlertRule) (evs : List (Nat × ℚ))
    (h : r.status = .active) :
    ((runRule r evs).2 ≤ 1 ∧
      ((runRule r evs).2 = 1 ↔ evs.any (fun e => condHolds r e.2) = true)) ∧
    runRule above150 alertSeq =
      ({ condition := .above, threshold := 150, status := .triggered,
         last_triggered_at := some 2 }, 1) ∧
    runRule above150 (alertSeq.take 2) = (above150, 0) := by
  refine ⟨runRule_active_spec evs r h, by decide, by decide⟩

/-- Witness for claim C4 at the spec's rule and refresh sequence. -/
theorem alert_fires_exactly_once_witness :
    (runRule above150 alertSeq).2 ≤ 1 ∧
    ((runRule above150 alertSeq).2 = 1 ↔
      alertSeq.any (fun e => condHolds above150 e.2) = true) :=
  (alert_fires_exactly_once above150 alertSeq rfl).1

/-- Claim C5: news ingestion is idempotent under fingerprint collision.
Re-ingesting any item right after ingesting it is a no-op returning inserted
false with the store unchanged; and ingesting two raw items carrying identical
title, source and published_at into a store free of that fingerprint leaves
exactly one stored item with it, the second call reporting inserted false. -/
theorem ingest_idempotent (store : List NewsItem) (r1 r2 : NewsItem)
    (ht : r1.title = r2.title) (hs : r1.source = r2.source)
    (hp : r1.published_at = r2.published_at)
    (hfree : store.countP (fun n => decide (fingerprintOf n = fingerprintOf r1)) = 0) :
    (∀ raw : NewsItem, ingest (ingest store raw).2 raw = (false, (ingest store raw).2)) ∧
    (ingest (ingest store r1).2 r2).2.countP
      (fun n => decide (fingerprintOf n = fingerprintOf r1)) = 1 ∧
    (ingest (ingest store r1).2 r2).1 = false := by
  have hfp : fingerprintOf r1 = fingerprintOf r2 := by
    simp [fingerprintOf, fingerprint, ht, hs, hp]
  have hany : store.any (fun n => decide (fingerprintOf n = fingerprintOf r1)) = false := by
    rw [List.any_eq_false]
    intro n hn
    have := List.countP_eq_zero.mp hfree n hn
    simpa using this
  refine ⟨?_, ?_, ?_⟩
  · intro raw
    by_cases hin : store.any (fun n => decide (fingerprintOf n = fingerprintOf raw)) = true
    · simp [ingest, hin]
    · rw [Bool.not_eq_true] at hin
      have hsecond :
          (store ++ [raw]).any (fun n => decide (fingerprintOf n = fingerprintOf raw)) = true := by
        simp [List.any_append]
      simp [ingest, hin, hsecond]
  · have hfirst : ingest store r1 = (true, store ++ [r1]) := by
      simp [ingest, hany]
    have hsecond :
        (store ++ [r1]).any (fun n => decide (fingerprintOf n = fingerprintOf r2)) = true := by
      simp [List.any_append, hfp]
    rw [hfirst]
    simp only [ingest, hsecond, if_pos]
    rw [List.countP_append, hfree]
    simp
  · have hfirst : ingest store r1 = (true, store ++ [r1]) := by
      simp [ingest, hany]
    have hsecond :
        (store ++ [r1]).any (fun n => decide (fingerprintOf n = fingerprintOf r2)) = true := by
      simp [List.any_append, hfp]
    rw [hfirst]
    simp [ingest, hsecond]

/-- Witness for claim C5: two ingests of the same concrete item into the empty
store leave exactly one stored copy, the second call reporting no insert. -/
theorem ingest_idempotent_witness :
    (ingest (ingest [] { title := "Rally", source := "Wire", published_at := 5 }).2
        { title := "Rally", source := "Wire", published_at := 5 }).2.countP
      (fun n => decide (fingerprintOf n =
        fingerprintOf { title := "Rally", source := "Wire", published_at := 5 })) = 1 ∧
    (ingest (ingest [] { title := "Rally", source := "Wire", published_at := 5 }).2
        { title := "Rally", source := "Wire", published_at := 5 }).1 = false :=
  (ingest_idempotent [] { title := "Rally", source := "Wire", published_at := 5 }
    { title := "Rally", source := "Wire", published_at := 5 } rfl rfl rfl (by decide)).2

/-- Claim C6: deleting a portfolio removes exactly its own holdings: after the
cascade no holding carries the deleted id, every surviving holding was already
stored, and for every other portfolio the list of its holdings is exactly what
it was before the deletion. -/
theorem delete_cascades_exactly (db : StoreState) (pid : Nat) :
    (deletePortfolioCascade db pid).holdings.filter (fun h => h.portfolio_id == pid) = [] ∧
    (∀ h ∈ (deletePortfolioCascade db pid).holdings, h ∈ db.holdings) ∧
    (∀ qid : Nat, qid ≠ pid →
      (deletePortfolioCascade db pid).holdings.filter (fun h => h.portfolio_id == qid) =
        db.holdings.filter (fun h => h.portfolio_id == qid)) := by
  refine ⟨?_, ?_, ?_⟩
  · simp only [deletePortfolioCascade]
    induction db.holdings with
    | nil => rfl
    | cons h t ih =>
      by_cases hh : h.portfolio_id = pid
      · simp [List.filter_cons, hh, ih]
      · simp [List.filter_cons, hh, ih]
  · intro h hmem
    exact List.mem_of_mem_filter hmem
  · intro qid hq
    simp only [deletePortfolioCascade]
    induction db.holdings with
    | nil => rfl
    | cons h t ih =>
      by_cases hh : h.portfolio_id = pid
      · simp [List.filter_cons, hh, Ne.symm hq, ih]
      · simp [List.filter_cons, hh, ih]

/-- Witness for claim C6: deleting portfolio 1 from a concrete two-portfolio
store keeps portfolio 2's holding list exactly as it was and keeps only
already-stored holdings. -/
theorem delete_cascades_exactly_witness :
    ((deletePortfolioCascade exampleStore 1).holdings.filter
        (fun h => h.portfolio_id == 2) =
      exampleStore.holdings.filter (fun h => h.portfolio_id == 2)) ∧
    ({ portfolio_id := 2, symbol := "BBB", quantity := 5, purchase_price := 180 } : Holding) ∈
      exampleStore.holdings :=
  ⟨(delete_cascades_exactly exampleStore 1).2.2 2 (by decide),
   (delete_cascades_exactly exampleStore 1).2.1
     { portfolio_id := 2, symbol := "BBB", quantity := 5, purchase_price := 180 } (by decide)⟩
